import Mathlib

/-!
# Verification of the paparazzi `air_data` module

Shallow embedding of `sw/airborne/modules/air_data/air_data.c`.

The pure airspeed conversions (`eas_from_dynamic_pressure`,
`tas_from_eas`, `tas_from_dynamic_pressure`) are modelled over the real
numbers, with `Real.sqrt` as the semantics of the C library `sqrtf`.

The stateful part (`air_data_init`, the three ABI sensor callbacks,
`air_data_periodic`, `air_data_SetQNH`, `air_data_get_amsl`) is modelled
as a step function on an explicit state record, with rationals for the
numeric fields.  The ISA atmosphere helpers (`pprz_isa_*`, which live in
`math/pprz_isa.h`, outside this module) and the library square root are
kept abstract: the step function is parametrised over them, so every
theorem about the state machine holds for every interpretation of those
externals.
-/

namespace AirDataModule

/-- Standard sea-level air density rho_0 in kg/m^3
(`PPRZ_ISA_AIR_DENSITY` from `math/pprz_isa.h`). -/
def PPRZ_ISA_AIR_DENSITY : ℝ := 1.225

/-- Standard sea-level pressure in Pa
(`PPRZ_ISA_SEA_LEVEL_PRESSURE` from `math/pprz_isa.h`). -/
def PPRZ_ISA_SEA_LEVEL_PRESSURE : ℝ := 101325

/-- Standard sea-level temperature in Kelvin
(`PPRZ_ISA_SEA_LEVEL_TEMP` from `math/pprz_isa.h`). -/
def PPRZ_ISA_SEA_LEVEL_TEMP : ℝ := 288.15

/-- `eas_from_dynamic_pressure` from `air_data.c`:
`sqrtf(Max(q * two_div_rho_0, 0))` with `two_div_rho_0 = 2.0 / PPRZ_ISA_AIR_DENSITY`. -/
noncomputable def eas_from_dynamic_pressure (q : ℝ) : ℝ :=
  Real.sqrt (max (q * (2 / PPRZ_ISA_AIR_DENSITY)) 0)

/-- `tas_from_eas` from `air_data.c`: `air_data.tas_factor * eas`.
The global's `tas_factor` field is passed explicitly. -/
def tas_from_eas (tas_factor eas : ℝ) : ℝ :=
  tas_factor * eas

/-- `tas_from_dynamic_pressure` from `air_data.c`:
`tas_from_eas(eas_from_dynamic_pressure(q))`. -/
noncomputable def tas_from_dynamic_pressure (tas_factor q : ℝ) : ℝ :=
  tas_from_eas tas_factor (eas_from_dynamic_pressure q)

/-- `get_tas_factor` from `air_data.c`:
`sqrtf((PPRZ_ISA_SEA_LEVEL_PRESSURE * (t + 274.15)) / (p * PPRZ_ISA_SEA_LEVEL_TEMP))`. -/
noncomputable def get_tas_factor (p t : ℝ) : ℝ :=
  Real.sqrt ((PPRZ_ISA_SEA_LEVEL_PRESSURE * (t + 274.15)) /
             (p * PPRZ_ISA_SEA_LEVEL_TEMP))

end AirDataModule

namespace AirDataModule

/-- C8: the EAS conversion is nonnegative everywhere, clamps every
negative dynamic pressure to 0 (the radicand is never negative), and is
monotonically non-decreasing. -/
theorem eas_from_dynamic_pressure_props (q q1 q2 : ℝ) (h12 : q1 ≤ q2) :
    0 ≤ eas_from_dynamic_pressure q ∧
    (q < 0 → eas_from_dynamic_pressure q = 0) ∧
    eas_from_dynamic_pressure q1 ≤ eas_from_dynamic_pressure q2 := by
  have hrho : (0 : ℝ) < 2 / PPRZ_ISA_AIR_DENSITY := by
    unfold PPRZ_ISA_AIR_DENSITY; norm_num
  refine ⟨Real.sqrt_nonneg _, ?_, ?_⟩
  · intro hq
    have hneg : q * (2 / PPRZ_ISA_AIR_DENSITY) < 0 :=
      mul_neg_of_neg_of_pos hq hrho
    unfold eas_from_dynamic_pressure
    rw [max_eq_right hneg.le, Real.sqrt_zero]
  · unfold eas_from_dynamic_pressure
    apply Real.sqrt_le_sqrt
    exact max_le_max (mul_le_mul_of_nonneg_right h12 hrho.le) le_rfl

/-- Witness for `eas_from_dynamic_pressure_props` at q = -1, q1 = 0, q2 = 1. -/
theorem eas_from_dynamic_pressure_props_witness :
    0 ≤ eas_from_dynamic_pressure (-1) ∧
    eas_from_dynamic_pressure (-1) = 0 ∧
    eas_from_dynamic_pressure 0 ≤ eas_from_dynamic_pressure 1 :=
  ⟨(eas_from_dynamic_pressure_props (-1) 0 1 (by norm_num)).1,
   (eas_from_dynamic_pressure_props (-1) 0 1 (by norm_num)).2.1 (by norm_num),
   (eas_from_dynamic_pressure_props (-1) 0 1 (by norm_num)).2.2⟩

/-- C9: TAS from dynamic pressure is the TAS factor held in the state
times the EAS conversion, i.e. the composition of `eas_from_dynamic_pressure`
and multiplication by the factor. -/
theorem tas_from_dynamic_pressure_eq (f q : ℝ) :
    tas_from_dynamic_pressure f q = f * eas_from_dynamic_pressure q :=
  rfl

/-! ## State machine embedding

Rationals model the `float` fields (the numeric values flow through the
machine unevaluated; the claims about the machine are control-flow
claims).  Functions implemented outside `air_data.c` (`pprz_isa_*` from
`math/pprz_isa.h` and the C library `sqrtf`) are abstract parameters,
collected in `Isa`. -/

/-- Abstract interpretations of the external numeric helpers used by
`air_data.c`: `pprz_isa_ref_pressure_of_height_full`,
`pprz_isa_height_of_pressure_full` (both from `math/pprz_isa.h`) and the
C library `sqrtf`. -/
structure Isa where
  ref_pressure_of_height : ℚ → ℚ → ℚ
  height_of_pressure : ℚ → ℚ → ℚ
  sqrtf : ℚ → ℚ

/-- The fields of `struct AirData` that `air_data.c` reads or writes. -/
structure AirData where
  pressure : ℚ
  differential : ℚ
  temperature : ℚ
  airspeed : ℚ
  tas_factor : ℚ
  qnh : ℚ
  amsl_baro : ℚ
  amsl_baro_valid : Bool
  calc_airspeed : Bool
  calc_amsl_baro : Bool
  calc_qnh_once : Bool
  calc_tas_factor : Bool
  deriving DecidableEq

/-- The module state: the global `struct AirData air_data` plus the two
file-static validity variables `qnh_set` and `baro_health_counter`.
The counter is a `uint8_t` that only ever holds values in `[0, 10]`
(set to 10, guarded decrement), so `Nat` models it exactly. -/
structure SysState where
  air_data : AirData
  qnh_set : Bool
  baro_health_counter : Nat
  deriving DecidableEq

/-- The compile-time configuration macros read by `air_data_init`:
`AIR_DATA_CALC_AIRSPEED`, `AIR_DATA_CALC_TAS_FACTOR`,
`AIR_DATA_CALC_AMSL_BARO`, `AIR_DATA_TAS_FACTOR`. -/
structure Config where
  calc_airspeed : Bool
  calc_tas_factor : Bool
  calc_amsl_baro : Bool
  tas_factor : ℚ

/-- The default configuration given by the `#ifndef` defaults in
`air_data.c`: airspeed and TAS-factor computation on, AMSL-baro
computation off, TAS factor 1.0. -/
def defaultConfig : Config :=
  { calc_airspeed := true
    calc_tas_factor := true
    calc_amsl_baro := false
    tas_factor := 1 }

/-- The external global-position store as seen at one callback
invocation: `stateIsGlobalCoordinateValid()` and
`stateGetPositionLla_f()->alt`. -/
structure GpsEnv where
  valid : Bool
  alt : ℚ

/-- `air_data_init` from `air_data.c`.  The numeric fields not assigned
by the function keep the C zero initialisation of static storage. -/
def air_data_init (cfg : Config) : SysState :=
  { air_data :=
      { pressure := 0
        differential := 0
        temperature := 0
        airspeed := 0
        tas_factor := cfg.tas_factor
        qnh := 0
        amsl_baro := 0
        amsl_baro_valid := false
        calc_airspeed := cfg.calc_airspeed
        calc_amsl_baro := cfg.calc_amsl_baro
        calc_qnh_once := true
        calc_tas_factor := cfg.calc_tas_factor }
    qnh_set := false
    baro_health_counter := 0 }

/-- `pressure_abs_cb` from `air_data.c`: store the sample, run the
one-shot QNH capture when enabled and the global fix is valid, recompute
`amsl_baro` when enabled and QNH is known, and reset the health counter
to 10. -/
def pressure_abs_cb (isa : Isa) (gps : GpsEnv) (s : SysState) (p : ℚ) : SysState :=
  let ad0 := { s.air_data with pressure := p }
  let capture := ad0.calc_qnh_once && gps.valid
  let ad1 :=
    if capture then
      { ad0 with
          qnh := isa.ref_pressure_of_height ad0.pressure gps.alt / 100
          calc_qnh_once := false }
    else ad0
  let qnh_set1 := if capture then true else s.qnh_set
  let ad2 :=
    if ad1.calc_amsl_baro && qnh_set1 then
      { ad1 with
          amsl_baro := isa.height_of_pressure ad1.pressure (ad1.qnh * 100)
          amsl_baro_valid := true }
    else ad1
  { air_data := ad2, qnh_set := qnh_set1, baro_health_counter := 10 }

/-- The rational-valued counterpart of `eas_from_dynamic_pressure`, with
the library square root abstract. -/
def eas_from_dynamic_pressureQ (isa : Isa) (q : ℚ) : ℚ :=
  isa.sqrtf (max (q * (2 / (1.225 : ℚ))) 0)

/-- The rational-valued counterpart of `tas_from_dynamic_pressure`. -/
def tas_from_dynamic_pressureQ (isa : Isa) (tas_factor q : ℚ) : ℚ :=
  tas_factor * eas_from_dynamic_pressureQ isa q

/-- The rational-valued counterpart of `get_tas_factor`. -/
def get_tas_factorQ (isa : Isa) (p t : ℚ) : ℚ :=
  isa.sqrtf (((101325 : ℚ) * (t + 274.15)) / (p * (288.15 : ℚ)))

/-- `pressure_diff_cb` from `air_data.c`: store the sample and, when
airspeed computation is enabled, recompute `airspeed` (the push of that
value into the external vehicle-state store is outside this state). -/
def pressure_diff_cb (isa : Isa) (s : SysState) (p : ℚ) : SysState :=
  let ad0 := { s.air_data with differential := p }
  let ad1 :=
    if ad0.calc_airspeed then
      { ad0 with airspeed := tas_from_dynamic_pressureQ isa ad0.tas_factor ad0.differential }
    else ad0
  { s with air_data := ad1 }

/-- `temperature_cb` from `air_data.c`: store the sample and, when
TAS-factor computation is enabled and the baro health counter is
nonzero, recompute `tas_factor`. -/
def temperature_cb (isa : Isa) (s : SysState) (t : ℚ) : SysState :=
  let ad0 := { s.air_data with temperature := t }
  let ad1 :=
    if ad0.calc_tas_factor && decide (0 < s.baro_health_counter) then
      { ad0 with tas_factor := get_tas_factorQ isa ad0.pressure ad0.temperature }
    else ad0
  { s with air_data := ad1 }

/-- `air_data_periodic` from `air_data.c`: decrement the health counter
while positive, otherwise clear `amsl_baro_valid`. -/
def air_data_periodic (s : SysState) : SysState :=
  if 0 < s.baro_health_counter then
    { s with baro_health_counter := s.baro_health_counter - 1 }
  else
    { s with air_data := { s.air_data with amsl_baro_valid := false } }

/-- `air_data_SetQNH` from `air_data.c`: overwrite `qnh` and mark it
set. -/
def air_data_SetQNH (s : SysState) (q : ℚ) : SysState :=
  { s with air_data := { s.air_data with qnh := q }, qnh_set := true }

/-- `air_data_get_amsl` from `air_data.c`: `amsl_baro` when valid, else
the altitude from the external global-position store. -/
def air_data_get_amsl (s : SysState) (gpsAlt : ℚ) : ℚ :=
  if s.air_data.amsl_baro_valid then s.air_data.amsl_baro else gpsAlt

/-- One externally triggered operation on the module state: a bus event
delivered to one of the three callbacks, the periodic watchdog tick, or
an external `air_data_SetQNH` call. -/
inductive Event where
  | absSample (gps : GpsEnv) (p : ℚ)
  | diffSample (p : ℚ)
  | tempSample (t : ℚ)
  | tick
  | setQNH (q : ℚ)

/-- Dispatch one event to the corresponding operation of `air_data.c`. -/
def step (isa : Isa) (s : SysState) (e : Event) : SysState :=
  match e with
  | .absSample gps p => pressure_abs_cb isa gps s p
  | .diffSample p => pressure_diff_cb isa s p
  | .tempSample t => temperature_cb isa s t
  | .tick => air_data_periodic s
  | .setQNH q => air_data_SetQNH s q

/-- Run a sequence of events from a state. -/
def run (isa : Isa) (s : SysState) (es : List Event) : SysState :=
  es.foldl (step isa) s

/-- A trivial concrete interpretation of the external helpers, for
evaluating the machine on concrete traces. -/
def isa0 : Isa :=
  { ref_pressure_of_height := fun p h => p + h
    height_of_pressure := fun p r => p - r
    sqrtf := fun q => q }

/-! ## Event-bus subscriptions registered by `air_data_init` -/

/-- The ABI message types the module's bind calls name. -/
inductive AbiMsgId where
  | BARO_ABS
  | BARO_DIFF
  | TEMPERATURE
  deriving DecidableEq

/-- The three static callbacks of `air_data.c`. -/
inductive CallbackId where
  | pressure_abs
  | pressure_diff
  | temperature
  deriving DecidableEq

/-- The broadcast wildcard sender filter (`ABI_BROADCAST`). -/
def ABI_BROADCAST : Nat := 255

/-- One ABI binding: message type, sender filter, handler. -/
structure Subscription where
  msg : AbiMsgId
  filterId : Nat
  cb : CallbackId
  deriving DecidableEq

/-- The subscription list registered by `air_data_init`, exactly as the
three `AbiBindMsg...` calls in the source read: the first two bind calls
are both `AbiBindMsgBARO_ABS` (the second one passing the
`AIR_DATA_BARO_DIFF_ID` filter and `pressure_diff_cb`), the third is
`AbiBindMsgTEMPERATURE`. -/
def air_data_subscriptions (absId diffId tempId : Nat) : List Subscription :=
  [{ msg := .BARO_ABS, filterId := absId, cb := .pressure_abs },
   { msg := .BARO_ABS, filterId := diffId, cb := .pressure_diff },
   { msg := .TEMPERATURE, filterId := tempId, cb := .temperature }]

/-- Modelled from the spec: the bus dispatch lives in `subsystems/abi.h`,
outside this module's source.  Per the spec it delivers a `(sourceId, value)`
payload to every handler subscribed to that message type whose
source-filter identifier is the broadcast wildcard or equals the sender. -/
def delivered (subs : List Subscription) (msg : AbiMsgId) (sender : Nat) :
    List CallbackId :=
  (subs.filter fun sub =>
    decide (sub.msg = msg ∧ (sub.filterId = ABI_BROADCAST ∨ sub.filterId = sender))).map
    Subscription.cb

end AirDataModule

namespace AirDataModule

/-- C1: `air_data_init` registers exactly three subscriptions, but the
differential-pressure callback is bound to the absolute-pressure message
(the source's second bind call is `AbiBindMsgBARO_ABS`), so with the
default broadcast filters a differential-pressure bus event reaches no
callback at all, while an absolute-pressure event invokes both
`pressure_abs_cb` and `pressure_diff_cb`. -/
theorem abi_diff_binding_bug :
    (air_data_subscriptions ABI_BROADCAST ABI_BROADCAST ABI_BROADCAST).length = 3 ∧
    (∀ sub ∈ air_data_subscriptions ABI_BROADCAST ABI_BROADCAST ABI_BROADCAST,
        sub.cb = CallbackId.pressure_diff → sub.msg = AbiMsgId.BARO_ABS) ∧
    delivered (air_data_subscriptions ABI_BROADCAST ABI_BROADCAST ABI_BROADCAST)
        AbiMsgId.BARO_DIFF 1 = [] ∧
    delivered (air_data_subscriptions ABI_BROADCAST ABI_BROADCAST ABI_BROADCAST)
        AbiMsgId.BARO_ABS 1 =
      [CallbackId.pressure_abs, CallbackId.pressure_diff] := by
  refine ⟨rfl, ?_, rfl, rfl⟩
  intro sub hsub
  fin_cases hsub <;> simp

/-- A sample state with a valid barometric AMSL altitude. -/
def stateA : SysState :=
  { air_data :=
      { pressure := 101325
        differential := 0
        temperature := 15
        airspeed := 0
        tas_factor := 1
        qnh := 1013
        amsl_baro := 42
        amsl_baro_valid := true
        calc_airspeed := true
        calc_amsl_baro := true
        calc_qnh_once := false
        calc_tas_factor := true }
    qnh_set := true
    baro_health_counter := 10 }

/-- C6: the accessor returns `amsl_baro` when `amsl_baro_valid`, the
external global-position altitude otherwise; right after
initialization `amsl_baro_valid` is false and the accessor returns the
external altitude. -/
theorem air_data_get_amsl_spec (s : SysState) (cfg : Config) (alt : ℚ) :
    (s.air_data.amsl_baro_valid = true → air_data_get_amsl s alt = s.air_data.amsl_baro) ∧
    (s.air_data.amsl_baro_valid = false → air_data_get_amsl s alt = alt) ∧
    (air_data_init cfg).air_data.amsl_baro_valid = false ∧
    air_data_get_amsl (air_data_init cfg) alt = alt := by
  refine ⟨?_, ?_, rfl, rfl⟩ <;>
    intro h <;> simp [air_data_get_amsl, h]

/-- Witness for `air_data_get_amsl_spec`: both branches at concrete
states, and the cold-start behaviour of the default configuration. -/
theorem air_data_get_amsl_spec_witness :
    air_data_get_amsl stateA 5 = stateA.air_data.amsl_baro ∧
    air_data_get_amsl (air_data_init defaultConfig) 7 = 7 ∧
    (air_data_init defaultConfig).air_data.amsl_baro_valid = false ∧
    air_data_get_amsl (air_data_init defaultConfig) 7 = 7 :=
  ⟨(air_data_get_amsl_spec stateA defaultConfig 5).1 rfl,
   (air_data_get_amsl_spec (air_data_init defaultConfig) defaultConfig 7).2.1 rfl,
   (air_data_get_amsl_spec (air_data_init defaultConfig) defaultConfig 7).2.2.1,
   (air_data_get_amsl_spec (air_data_init defaultConfig) defaultConfig 7).2.2.2⟩

/-- C7: one watchdog tick changes nothing but the health counter and the
`amsl_baro_valid` flag: every sensor value, derived value, `qnh`, and
all configuration flags are untouched, as is `qnh_set`. -/
theorem air_data_periodic_frame (s : SysState) :
    (air_data_periodic s).air_data.pressure = s.air_data.pressure ∧
    (air_data_periodic s).air_data.differential = s.air_data.differential ∧
    (air_data_periodic s).air_data.temperature = s.air_data.temperature ∧
    (air_data_periodic s).air_data.airspeed = s.air_data.airspeed ∧
    (air_data_periodic s).air_data.tas_factor = s.air_data.tas_factor ∧
    (air_data_periodic s).air_data.qnh = s.air_data.qnh ∧
    (air_data_periodic s).air_data.amsl_baro = s.air_data.amsl_baro ∧
    (air_data_periodic s).air_data.calc_airspeed = s.air_data.calc_airspeed ∧
    (air_data_periodic s).air_data.calc_amsl_baro = s.air_data.calc_amsl_baro ∧
    (air_data_periodic s).air_data.calc_qnh_once = s.air_data.calc_qnh_once ∧
    (air_data_periodic s).air_data.calc_tas_factor = s.air_data.calc_tas_factor ∧
    (air_data_periodic s).qnh_set = s.qnh_set := by
  unfold air_data_periodic
  split <;> simp

/-- C5: `air_data_SetQNH` overwrites `qnh`, marks it set, and leaves
`calc_qnh_once` untouched; hence if `calc_qnh_once` is still true, a
subsequent absolute-pressure sample under a valid global fix overwrites
the externally set value with the auto-captured one. -/
theorem setqnh_then_autocapture (isa : Isa) (s : SysState) (q : ℚ)
    (gps : GpsEnv) (p : ℚ)
    (hflag : s.air_data.calc_qnh_once = true) (hfix : gps.valid = true) :
    (air_data_SetQNH s q).air_data.qnh = q ∧
    (air_data_SetQNH s q).qnh_set = true ∧
    (air_data_SetQNH s q).air_data.calc_qnh_once = s.air_data.calc_qnh_once ∧
    (step isa (air_data_SetQNH s q) (Event.absSample gps p)).air_data.qnh =
      isa.ref_pressure_of_height p gps.alt / 100 := by
  refine ⟨rfl, rfl, rfl, ?_⟩
  simp only [step, pressure_abs_cb, air_data_SetQNH, hflag, hfix]
  split
  · split <;> rfl
  · simp_all

/-- Witness for `setqnh_then_autocapture`: the freshly initialized state
(`calc_qnh_once` still true), an external QNH of 3, then an
absolute-pressure sample under a valid fix. -/
theorem setqnh_then_autocapture_witness :
    (air_data_SetQNH (air_data_init defaultConfig) 3).air_data.qnh = 3 ∧
    (air_data_SetQNH (air_data_init defaultConfig) 3).qnh_set = true ∧
    (air_data_SetQNH (air_data_init defaultConfig) 3).air_data.calc_qnh_once =
      (air_data_init defaultConfig).air_data.calc_qnh_once ∧
    (step isa0 (air_data_SetQNH (air_data_init defaultConfig) 3)
        (Event.absSample ⟨true, 2⟩ 5)).air_data.qnh =
      isa0.ref_pressure_of_height 5 2 / 100 :=
  setqnh_then_autocapture isa0 (air_data_init defaultConfig) 3 ⟨true, 2⟩ 5 rfl rfl

/-! ## The one-shot QNH auto-capture (`calc_qnh_once`) -/

/-- The auto-capture condition of `pressure_abs_cb` at a given state and
event: the event is an absolute-pressure sample, the one-shot flag is
still set, and the external global fix is valid. -/
def autoCaptureFires (s : SysState) (e : Event) : Bool :=
  match e with
  | .absSample gps _ => s.air_data.calc_qnh_once && gps.valid
  | _ => false

/-- Number of events of a trace whose processing runs the QNH
auto-capture branch (and hence writes `qnh` through the auto path). -/
def countFires (isa : Isa) (s : SysState) : List Event → Nat
  | [] => 0
  | e :: es => (if autoCaptureFires s e then 1 else 0) + countFires isa (step isa s e) es

lemma step_flag_eq (isa : Isa) (s : SysState) (e : Event) :
    (step isa s e).air_data.calc_qnh_once =
      (s.air_data.calc_qnh_once && !autoCaptureFires s e) := by
  cases e with
  | absSample gps p =>
      simp only [step, pressure_abs_cb, autoCaptureFires]
      cases hf : s.air_data.calc_qnh_once <;> cases hv : gps.valid <;>
        simp [hf, hv] <;> split <;> simp
  | diffSample p =>
      simp only [step, pressure_diff_cb, autoCaptureFires]
      split <;> simp
  | tempSample t =>
      simp only [step, temperature_cb, autoCaptureFires]
      split <;> simp
  | tick =>
      simp only [step, air_data_periodic, autoCaptureFires]
      split <;> simp
  | setQNH q =>
      simp [step, air_data_SetQNH, autoCaptureFires]

lemma step_flag_false (isa : Isa) (s : SysState) (e : Event)
    (h : s.air_data.calc_qnh_once = false) :
    (step isa s e).air_data.calc_qnh_once = false := by
  rw [step_flag_eq, h, Bool.false_and]

lemma fires_false_of_flag_false (s : SysState) (e : Event)
    (h : s.air_data.calc_qnh_once = false) :
    autoCaptureFires s e = false := by
  cases e <;> simp [autoCaptureFires, h]

lemma countFires_zero (isa : Isa) (es : List Event) :
    ∀ s : SysState, s.air_data.calc_qnh_once = false → countFires isa s es = 0 := by
  induction es with
  | nil => intro s _; rfl
  | cons e es ih =>
      intro s h
      simp only [countFires, fires_false_of_flag_false s e h, if_neg Bool.false_ne_true,
        Nat.zero_add]
      exact ih _ (step_flag_false isa s e h)

lemma step_qnh_no_capture (isa : Isa) (s : SysState) (gps : GpsEnv) (p : ℚ)
    (h : s.air_data.calc_qnh_once = false) :
    (step isa s (Event.absSample gps p)).air_data.qnh = s.air_data.qnh := by
  simp only [step, pressure_abs_cb, h]
  split
  · simp_all
  · split <;> simp_all

lemma countFires_one_of_abs (isa : Isa) (es : List Event) :
    ∀ s : SysState, s.air_data.calc_qnh_once = true →
    (∀ e ∈ es, ∃ gps p, e = Event.absSample gps p ∧ gps.valid = true) →
    1 ≤ es.length → countFires isa s es = 1 := by
  induction es with
  | nil => intro s _ _ hlen; simp at hlen
  | cons e es ih =>
      intro s hs habs _
      obtain ⟨gps, p, rfl, hv⟩ := habs e (List.mem_cons_self e es)
      have hf : autoCaptureFires s (Event.absSample gps p) = true := by
        simp [autoCaptureFires, hs, hv]
      have h0 : (step isa s (Event.absSample gps p)).air_data.calc_qnh_once = false := by
        rw [step_flag_eq, hf]; simp
      simp [countFires, hf, countFires_zero isa es _ h0]

/-- C4: from initialization, the auto-capture branch of
`pressure_abs_cb` runs exactly once when at least two absolute-pressure
samples arrive under a valid global fix; `calc_qnh_once` never returns
to true once false, it only changes during an absolute-pressure
callback with a valid fix (true to false), and once it is false an
absolute-pressure sample no longer writes `qnh`. -/
theorem calc_qnh_once_oneshot (cfg : Config) (isa : Isa) (es : List Event)
    (habs : ∀ e ∈ es, ∃ gps p, e = Event.absSample gps p ∧ gps.valid = true)
    (hlen : 2 ≤ es.length) :
    countFires isa (air_data_init cfg) es = 1 ∧
    (∀ s e, s.air_data.calc_qnh_once = false →
        (step isa s e).air_data.calc_qnh_once = false) ∧
    (∀ s e, (step isa s e).air_data.calc_qnh_once ≠ s.air_data.calc_qnh_once →
        (∃ gps p, e = Event.absSample gps p ∧ gps.valid = true) ∧
        s.air_data.calc_qnh_once = true ∧
        (step isa s e).air_data.calc_qnh_once = false) ∧
    (∀ s gps p, s.air_data.calc_qnh_once = false →
        (step isa s (Event.absSample gps p)).air_data.qnh = s.air_data.qnh) := by
  refine ⟨?_, fun s e h => step_flag_false isa s e h, ?_, fun s gps p h => step_qnh_no_capture isa s gps p h⟩
  · exact countFires_one_of_abs isa es (air_data_init cfg) rfl habs (by omega)
  · intro s e hne
    rw [step_flag_eq] at hne
    have hfl : s.air_data.calc_qnh_once = true := by
      cases hfl : s.air_data.calc_qnh_once
      · rw [hfl, Bool.false_and] at hne; exact absurd rfl (hfl ▸ hne)
      · rfl
    have hfire : autoCaptureFires s e = true := by
      cases hfire : autoCaptureFires s e
      · rw [hfl, hfire] at hne; simp at hne
      · rfl
    refine ⟨?_, hfl, by rw [step_flag_eq, hfire]; simp⟩
    cases e with
    | absSample gps p =>
        refine ⟨gps, p, rfl, ?_⟩
        simpa [autoCaptureFires, hfl] using hfire
    | diffSample p => simp [autoCaptureFires] at hfire
    | tempSample t => simp [autoCaptureFires] at hfire
    | tick => simp [autoCaptureFires] at hfire
    | setQNH q => simp [autoCaptureFires] at hfire

/-- A global-position environment with a valid fix at altitude 0. -/
def gpsOk : GpsEnv := { valid := true, alt := 0 }

/-- Two absolute-pressure samples under a valid fix. -/
def c4trace : List Event := [Event.absSample gpsOk 1, Event.absSample gpsOk 2]

/-- Witness for `calc_qnh_once_oneshot`: two valid-fix samples from the
default initialization capture QNH exactly once, and the per-step facts
evaluated at concrete states. -/
theorem calc_qnh_once_oneshot_witness :
    countFires isa0 (air_data_init defaultConfig) c4trace = 1 ∧
    (step isa0 stateA Event.tick).air_data.calc_qnh_once = false ∧
    (step isa0 (air_data_init defaultConfig)
        (Event.absSample gpsOk 1)).air_data.calc_qnh_once = false ∧
    (step isa0 stateA (Event.absSample gpsOk 1)).air_data.qnh = stateA.air_data.qnh := by
  have h := calc_qnh_once_oneshot defaultConfig isa0 c4trace
    (by
      intro e he
      simp only [c4trace, List.mem_cons, List.mem_singleton, List.not_mem_nil, or_false] at he
      rcases he with rfl | rfl
      · exact ⟨gpsOk, 1, rfl, rfl⟩
      · exact ⟨gpsOk, 2, rfl, rfl⟩)
    (by simp [c4trace])
  exact ⟨h.1, h.2.1 stateA Event.tick rfl,
    (h.2.2.1 (air_data_init defaultConfig) (Event.absSample gpsOk 1) (by decide)).2.2,
    h.2.2.2 stateA gpsOk 1 rfl⟩

/-! ## The `amsl_baro_valid` invariant and the watchdog -/

/-- A configuration with barometric AMSL computation enabled. -/
def cfgAmsl : Config :=
  { calc_airspeed := true
    calc_tas_factor := true
    calc_amsl_baro := true
    tas_factor := 1 }

/-- One valid-fix absolute-pressure sample followed by ten watchdog
ticks. -/
def c2trace : List Event := Event.absSample gpsOk 1 :: List.replicate 10 Event.tick

/-- C2 counterexample: after an absolute-pressure sample (which sets
`amsl_baro_valid` and resets the counter to 10) and exactly ten ticks,
`amsl_baro_valid` is still true while `baro_health_counter` is zero, so
validity does not imply a nonzero watchdog counter. -/
theorem amsl_valid_counter_counterexample :
    (run isa0 (air_data_init cfgAmsl) c2trace).air_data.amsl_baro_valid = true ∧
    (run isa0 (air_data_init cfgAmsl) c2trace).qnh_set = true ∧
    (run isa0 (air_data_init cfgAmsl) c2trace).baro_health_counter = 0 := by
  refine ⟨rfl, rfl, rfl⟩

lemma step_preserves_valid_imp_qnhset (isa : Isa) (s : SysState) (e : Event)
    (h : s.air_data.amsl_baro_valid = true → s.qnh_set = true) :
    (step isa s e).air_data.amsl_baro_valid = true → (step isa s e).qnh_set = true := by
  cases e with
  | absSample gps p =>
      simp only [step, pressure_abs_cb]
      split
      · split <;> simp_all
      · split <;> simp_all
  | diffSample p =>
      simp only [step, pressure_diff_cb]
      split <;> simpa using h
  | tempSample t =>
      simp only [step, temperature_cb]
      split <;> simpa using h
  | tick =>
      simp only [step, air_data_periodic]
      split
      · simpa using h
      · simp
  | setQNH q =>
      simp [step, air_data_SetQNH]

/-- C2 (amended): in every state reachable from initialization by the
three callbacks, the watchdog tick and `air_data_SetQNH`, a true
`amsl_baro_valid` implies that QNH has been set.  (The watchdog-counter
half of the original claim fails: see the counterexample.) -/
theorem amsl_valid_implies_qnh_set (cfg : Config) (isa : Isa) (es : List Event)
    (h : (run isa (air_data_init cfg) es).air_data.amsl_baro_valid = true) :
    (run isa (air_data_init cfg) es).qnh_set = true := by
  suffices H : ∀ (es : List Event) (s : SysState),
      (s.air_data.amsl_baro_valid = true → s.qnh_set = true) →
      ((run isa s es).air_data.amsl_baro_valid = true → (run isa s es).qnh_set = true) by
    exact H es (air_data_init cfg) (by intro hv; exact absurd hv (by simp [air_data_init])) h
  intro es
  induction es with
  | nil => intro s hs; exact hs
  | cons e es ih =>
      intro s hs
      exact ih (step isa s e) (step_preserves_valid_imp_qnhset isa s e hs)

/-- Witness for `amsl_valid_implies_qnh_set`: one valid-fix sample with
AMSL computation enabled makes validity true, and QNH is indeed set. -/
theorem amsl_valid_implies_qnh_set_witness :
    (run isa0 (air_data_init cfgAmsl) [Event.absSample gpsOk 1]).qnh_set = true :=
  amsl_valid_implies_qnh_set cfgAmsl isa0 [Event.absSample gpsOk 1] (by decide)

/-- C3 counterexample: from a state with `amsl_baro_valid` true and the
healthy counter value 10, ten ticks with no absolute-pressure sample
leave `amsl_baro_valid` true — the claimed C ticks do not yet invalidate
it. -/
theorem watchdog_c_ticks_counterexample :
    stateA.air_data.amsl_baro_valid = true ∧
    stateA.baro_health_counter = 10 ∧
    (run isa0 stateA (List.replicate 10 Event.tick)).air_data.amsl_baro_valid = true :=
  ⟨rfl, rfl, rfl⟩

lemma run_ticks_of_le (isa : Isa) :
    ∀ (k : Nat) (s : SysState), k ≤ s.baro_health_counter →
      run isa s (List.replicate k Event.tick) =
        { s with baro_health_counter := s.baro_health_counter - k } := by
  intro k
  induction k with
  | zero => intro s _; rfl
  | succ k ih =>
      intro s hk
      have hpos : 0 < s.baro_health_counter := by omega
      have hstep : step isa s Event.tick =
          { s with baro_health_counter := s.baro_health_counter - 1 } := by
        simp [step, air_data_periodic, hpos]
      rw [List.replicate_succ, run, List.foldl_cons, ← run, hstep,
        ih { s with baro_health_counter := s.baro_health_counter - 1 } (by simp; omega)]
      congr 1
      simp
      omega

lemma run_ticks_keep_stale (isa : Isa) :
    ∀ (m : Nat) (s : SysState), s.baro_health_counter = 0 →
      s.air_data.amsl_baro_valid = false →
      (run isa s (List.replicate m Event.tick)).air_data.amsl_baro_valid = false ∧
      (run isa s (List.replicate m Event.tick)).baro_health_counter = 0 := by
  intro m
  induction m with
  | zero => intro s hc hv; exact ⟨hv, hc⟩
  | succ m ih =>
      intro s hc hv
      have hstep : step isa s Event.tick =
          { s with air_data := { s.air_data with amsl_baro_valid := false } } := by
        simp [step, air_data_periodic, hc]
      rw [List.replicate_succ, run, List.foldl_cons, ← run, hstep]
      exact ih _ hc rfl

/-- C3 (amended): from a state with `amsl_baro_valid` true and the
healthy counter value 10, the first 10 ticks leave `amsl_baro_valid`
true and every run of 11 or more ticks leaves it false (so the
true-to-false transition happens exactly once, at tick 11, not tick 10);
an absolute-pressure sample always resets the counter to 10 and, when
AMSL computation is enabled and QNH is known, sets `amsl_baro_valid`
true. -/
theorem watchdog_timeout (isa : Isa) (s : SysState)
    (hv : s.air_data.amsl_baro_valid = true) (hc : s.baro_health_counter = 10) :
    (∀ k, k ≤ 10 →
      (run isa s (List.replicate k Event.tick)).air_data.amsl_baro_valid = true) ∧
    (∀ k, 11 ≤ k →
      (run isa s (List.replicate k Event.tick)).air_data.amsl_baro_valid = false) ∧
    (∀ (s' : SysState) (gps : GpsEnv) (p : ℚ),
      (step isa s' (Event.absSample gps p)).baro_health_counter = 10) ∧
    (∀ (s' : SysState) (gps : GpsEnv) (p : ℚ),
      s'.air_data.calc_amsl_baro = true → s'.qnh_set = true →
      (step isa s' (Event.absSample gps p)).air_data.amsl_baro_valid = true) := by
  refine ⟨?_, ?_, ?_, ?_⟩
  · intro k hk
    rw [run_ticks_of_le isa k s (by omega)]
    exact hv
  · intro k hk
    have hsplit : List.replicate k Event.tick =
        List.replicate 10 Event.tick ++ List.replicate (k - 10) Event.tick := by
      rw [← List.replicate_add]
      congr 1
      omega
    rw [hsplit]
    have hrun10 : run isa s (List.replicate 10 Event.tick) =
        { s with baro_health_counter := 0 } := by
      rw [run_ticks_of_le isa 10 s (by omega)]
      congr 1
      omega
    rw [run, List.foldl_append, ← run, ← run, hrun10]
    obtain ⟨m, hm⟩ : ∃ m, k - 10 = m + 1 := ⟨k - 11, by omega⟩
    rw [hm, List.replicate_succ, run, List.foldl_cons, ← run]
    have hstep : step isa { s with baro_health_counter := 0 } Event.tick =
        { s with baro_health_counter := 0,
                 air_data := { s.air_data with amsl_baro_valid := false } } := by
      simp [step, air_data_periodic]
    rw [hstep]
    exact (run_ticks_keep_stale isa m _ rfl rfl).1
  · intro s' gps p
    rfl
  · intro s' gps p hcalc hqnh
    simp only [step, pressure_abs_cb]
    split
    · simp_all
    · simp_all

/-- Witness for `watchdog_timeout` at the concrete healthy state
`stateA`, instantiating the tick counts at 10 and 11 and the
absolute-pressure refresh at `stateA` itself. -/
theorem watchdog_timeout_witness :
    (run isa0 stateA (List.replicate 10 Event.tick)).air_data.amsl_baro_valid = true ∧
    (run isa0 stateA (List.replicate 11 Event.tick)).air_data.amsl_baro_valid = false ∧
    (step isa0 stateA (Event.absSample gpsOk 1)).baro_health_counter = 10 ∧
    (step isa0 stateA (Event.absSample gpsOk 1)).air_data.amsl_baro_valid = true := by
  have h := watchdog_timeout isa0 stateA rfl rfl
  exact ⟨h.1 10 (by norm_num), h.2.1 11 (by norm_num), h.2.2.1 stateA gpsOk 1,
    h.2.2.2 stateA gpsOk 1 rfl rfl⟩

/-! ## The disabled AMSL-baro computation (`calc_amsl_baro = false`) -/

lemma step_calc_amsl_baro (isa : Isa) (s : SysState) (e : Event) :
    (step isa s e).air_data.calc_amsl_baro = s.air_data.calc_amsl_baro := by
  cases e with
  | absSample gps p =>
      simp only [step, pressure_abs_cb]
      split
      · split <;> simp
      · split <;> simp
  | diffSample p =>
      simp only [step, pressure_diff_cb]
      split <;> simp
  | tempSample t =>
      simp only [step, temperature_cb]
      split <;> simp
  | tick =>
      simp only [step, air_data_periodic]
      split <;> simp
  | setQNH q =>
      simp [step, air_data_SetQNH]

lemma step_valid_false_of_no_amsl (isa : Isa) (s : SysState) (e : Event)
    (hc : s.air_data.calc_amsl_baro = false)
    (hv : s.air_data.amsl_baro_valid = false) :
    (step isa s e).air_data.amsl_baro_valid = false := by
  cases e with
  | absSample gps p =>
      simp only [step, pressure_abs_cb]
      split
      · split <;> simp_all
      · split <;> simp_all
  | diffSample p =>
      simp only [step, pressure_diff_cb]
      split <;> simpa using hv
  | tempSample t =>
      simp only [step, temperature_cb]
      split <;> simpa using hv
  | tick =>
      simp only [step, air_data_periodic]
      split <;> simp [hv]
  | setQNH q =>
      simpa [step, air_data_SetQNH] using hv

/-- C10: with `calc_amsl_baro` disabled (its compile-time default),
`amsl_baro_valid` stays false along every event sequence from
initialization, so `air_data_get_amsl` always returns the external
global-position altitude. -/
theorem calc_amsl_baro_off (cfg : Config) (isa : Isa) (es : List Event) (alt : ℚ)
    (hcfg : cfg.calc_amsl_baro = false) :
    (run isa (air_data_init cfg) es).air_data.amsl_baro_valid = false ∧
    air_data_get_amsl (run isa (air_data_init cfg) es) alt = alt := by
  suffices H : ∀ (es : List Event) (s : SysState),
      s.air_data.calc_amsl_baro = false → s.air_data.amsl_baro_valid = false →
      (run isa s es).air_data.amsl_baro_valid = false by
    have hval : (run isa (air_data_init cfg) es).air_data.amsl_baro_valid = false :=
      H es (air_data_init cfg) (by simpa [air_data_init] using hcfg) rfl
    exact ⟨hval, by simp [air_data_get_amsl, hval]⟩
  intro es
  induction es with
  | nil => intro s _ hv; exact hv
  | cons e es ih =>
      intro s hc hv
      exact ih (step isa s e)
        ((step_calc_amsl_baro isa s e).trans hc)
        (step_valid_false_of_no_amsl isa s e hc hv)

/-- Witness for `calc_amsl_baro_off`: the default configuration, the
trivial external interpretation, and a short trace of valid-fix
absolute-pressure samples. -/
theorem calc_amsl_baro_off_witness :
    (run isa0 (air_data_init defaultConfig) c4trace).air_data.amsl_baro_valid = false ∧
    air_data_get_amsl (run isa0 (air_data_init defaultConfig) c4trace) 7 = 7 :=
  calc_amsl_baro_off defaultConfig isa0 c4trace 7 rfl

end AirDataModule
